import Mathlib

/-!
Shallow embedding of the client-side document-ingestion core of the
ai-rag-web repository: the file validator and utility functions
(src/unnamed/part_012, a file-utils module) and the multi-format parser
(src/lib/file-parser.ts).

JavaScript strings are modelled by Lean `String`; the JS string operations
used by the source (`toLowerCase`, `endsWith`, `substring`, `trim`,
`Array.join`, `split`) are re-implemented below over `String.data`
(the underlying `List Char`) so that every definition is executable and
amenable to list reasoning.  External decoding libraries (pdf.js, mammoth,
xlsx, csv-parse) are the environment: an `UploadFile` carries, besides its
`name`, declared MIME `type` and `size`, the decoded text content
(`file.text()`), the per-page normalized text that pdf.js would deliver,
and the outcomes of the Word/Excel library calls.  Everything the source
does with those values is translated faithfully.
-/

namespace AiRagWeb

/-- JS `s.toLowerCase()` (ASCII case mapping, which covers every string the
source compares). -/
def lowerStr (s : String) : String := ⟨s.data.map Char.toLower⟩

/-- JS `s.endsWith(suffix)`. -/
def endsWithStr (s suffix : String) : Bool := suffix.data.isSuffixOf s.data

/-- JS `s.substring(0, n)`. -/
def takeStr (s : String) (n : Nat) : String := ⟨s.data.take n⟩

/-- Whitespace characters removed by JS `s.trim()` (the code points the
source's data can contain). -/
def isWS (c : Char) : Bool := c = ' ' ∨ c = '\n' ∨ c = '\t' ∨ c = '\r'

/-- JS `s.trim()` on the underlying character list. -/
def trimChars (l : List Char) : List Char :=
  (((l.dropWhile isWS).reverse).dropWhile isWS).reverse

/-- JS `s.trim()`. -/
def trimStr (s : String) : String := ⟨trimChars s.data⟩

/-- JS `array.join(sep)`. -/
def joinWith (sep : String) : List String → String
  | [] => ""
  | [x] => x
  | x :: y :: xs => x ++ sep ++ joinWith sep (y :: xs)

/-- Concatenation of a list of strings (repeated JS `+=`). -/
def concatAll : List String → String
  | [] => ""
  | x :: xs => x ++ concatAll xs

/-- Split a character list at every occurrence of `c` (JS `s.split(c)`). -/
def splitChar (c : Char) : List Char → List (List Char)
  | [] => [[]]
  | x :: xs =>
    if x = c then [] :: splitChar c xs
    else
      match splitChar c xs with
      | [] => [[x]]
      | y :: ys => (x :: y) :: ys

/-- The lines of a string (JS `s.split('\n')`). -/
def linesOf (s : String) : List String :=
  (splitChar (Char.ofNat 10) s.data).map fun l => ⟨l⟩

/-! ## Data model

A browser `File` as the ingestion core observes it.  `name`, `type` and
`size` are the File API metadata used by the validator and the dispatcher.
The remaining fields are the environment delivered by the decoding
libraries: `text` is the resolved value of `file.text()` (the decoded byte
content, used by the CSV and plain-text extractors), `pages` is the
per-page normalized text that pdf.js yields for this file (each entry is
the page text after joining text runs with spaces, collapsing whitespace
and trimming, as file-parser.ts lines 33-44 do), and `wordResult` /
`excelResult` are the outcomes of the mammoth / xlsx library calls
(`Except.error m` models the library rejecting with message `m`). -/
structure UploadFile where
  name : String
  type : String
  size : Nat
  text : String := ""
  pages : List String := []
  wordResult : Except String String := .ok ""
  excelResult : Except String String := .ok ""

/-! ## File-utils module (src/unnamed/part_012) -/

/-- Constant `MAX_FILE_SIZE = 10 * 1024 * 1024`. -/
def MAX_FILE_SIZE : Nat := 10 * 1024 * 1024

/-- Table `ALLOWED_FILE_TYPES`: allowed MIME types, each with its extensions. -/
def ALLOWED_FILE_TYPES : List (String × List String) :=
  [("application/pdf", [".pdf"]),
   ("text/plain", [".txt"]),
   ("text/markdown", [".md"]),
   ("text/csv", [".csv"]),
   ("application/msword", [".doc"]),
   ("application/vnd.openxmlformats-officedocument.wordprocessingml.document", [".docx"]),
   ("application/vnd.ms-excel", [".xls"]),
   ("application/vnd.openxmlformats-officedocument.spreadsheetml.sheet", [".xlsx"]),
   ("application/vnd.ms-powerpoint", [".ppt"]),
   ("application/vnd.openxmlformats-officedocument.presentationml.presentation", [".pptx"])]

/-- Function `validateFileType`: the MIME type (lowercased) is truthy and a key of
`ALLOWED_FILE_TYPES`, or the lowercased name ends with one of the allowed
extensions. -/
def validateFileType (file : UploadFile) : Bool :=
  let fileType := lowerStr file.type
  let fileName := lowerStr file.name
  if fileType ≠ "" ∧ ALLOWED_FILE_TYPES.any (fun p => p.1 = fileType) then
    true
  else
    (ALLOWED_FILE_TYPES.map Prod.snd).flatten.any fun ext => endsWithStr fileName ext

/-- Function `validateFileSize`: `file.size <= MAX_FILE_SIZE`. -/
def validateFileSize (file : UploadFile) : Bool :=
  file.size ≤ MAX_FILE_SIZE

/-- The type-rejection message of `validateFile`. -/
def typeErrorMsg : String :=
  "File type not supported. Please upload PDF, TXT, Word, Excel, or CSV files."

/-- The size-rejection message of `validateFile`.  In the source the limit
is rendered by `formatFileSize(MAX_FILE_SIZE)` through floating-point
`Math.log`/`toFixed`, which evaluates to the constant "10 MB"; the constant
is inlined here. -/
def sizeErrorMsg : String :=
  "File size exceeds 10 MB limit."

/-- The `{ valid, error? }` record returned by `validateFile`. -/
structure FileCheck where
  valid : Bool
  error : Option String := none
deriving DecidableEq

/-- Function `validateFile`: type check first, then size check. -/
def validateFile (file : UploadFile) : FileCheck :=
  if ¬ validateFileType file then
    ⟨false, some typeErrorMsg⟩
  else if ¬ validateFileSize file then
    ⟨false, some sizeErrorMsg⟩
  else
    ⟨true, none⟩

/-- The `{ valid, errors }` record returned by `validateFiles`. -/
structure ValidationResult where
  valid : Bool
  errors : List String
deriving DecidableEq

/-- The `forEach` loop body of `validateFiles`: collect
`"<name>: <error>"` for each file whose check is invalid and carries an
error message. -/
def collectErrors : List UploadFile → List String
  | [] => []
  | file :: rest =>
    let result := validateFile file
    match result.valid, result.error with
    | false, some e => (file.name ++ ": " ++ e) :: collectErrors rest
    | _, _ => collectErrors rest

/-- Function `validateFiles`: aggregate the per-file errors; valid iff none. -/
def validateFiles (files : List UploadFile) : ValidationResult :=
  let errors := collectErrors files
  ⟨errors.length == 0, errors⟩

/-- Function `createContentPreview(content, maxLength = 500)`: the content itself
when within the bound, else `content.substring(0, maxLength) + "..."`. -/
def createContentPreview (content : String) (maxLength : Nat := 500) : String :=
  if content.data.length ≤ maxLength then content
  else takeStr content maxLength ++ "..."

/-! ## file-parser.ts -/

/-- The error thrown by `extractTextFromPDF` when every page is empty
(the ImageOnlyDocument failure of the spec). -/
def imageOnlyMsg : String :=
  "This PDF appears to be image-based (scanned). Text extraction requires OCR. " ++
  "Please use a text-based PDF or contact support for OCR processing."

/-- The error thrown by `extractTextFromPDF` when the trimmed output is
empty (the NoExtractableText failure of the spec). -/
def noTextMsg : String :=
  "No text content extracted from PDF. The file may be corrupted or image-based."

/-- One loop iteration of `extractTextFromPDF`: the block appended to
`fullText` for page number `i` with normalized page text `t`. -/
def renderPage (i : Nat) (t : String) : String :=
  if 0 < t.data.length then
    "\n--- Page " ++ Nat.repr i ++ " ---\n" ++ t ++ "\n"
  else
    "\n--- Page " ++ Nat.repr i ++ " ---\n[Empty page - possibly scanned image]\n"

/-- The `fullText` accumulated by the page loop of `extractTextFromPDF`,
starting at page number `i`. -/
def pdfFullText (i : Nat) : List String → String
  | [] => ""
  | t :: ts => renderPage i t ++ pdfFullText (i + 1) ts

/-- The `emptyPages` counter of `extractTextFromPDF`. -/
def countEmptyPages (pages : List String) : Nat :=
  (pages.filter fun t => t.data.length == 0).length

/-- The body of `extractTextFromPDF` after pdf.js has delivered the
per-page text: build `fullText` over pages 1..N, fail when every page was
empty, trim, fail when the trimmed result is empty, else succeed. -/
def extractPDFBody (pages : List String) : Except String String :=
  if countEmptyPages pages = pages.length then
    .error imageOnlyMsg
  else if (trimStr (pdfFullText 1 pages)).data.length = 0 then
    .error noTextMsg
  else
    .ok (trimStr (pdfFullText 1 pages))

/-- Function `extractTextFromPDF`: the outer catch wraps any failure message. -/
def extractTextFromPDF (file : UploadFile) : Except String String :=
  match extractPDFBody file.pages with
  | .ok r => .ok r
  | .error m => .error ("Failed to extract text from PDF: " ++ m)

/-- Function `extractTextFromWord`: mammoth's raw-text result, trimmed on success,
failure wrapped by the catch. -/
def extractTextFromWord (file : UploadFile) : Except String String :=
  match file.wordResult with
  | .ok v => .ok (trimStr v)
  | .error m => .error ("Failed to extract text from Word document: " ++ m)

/-- Function `extractTextFromExcel`: the xlsx library's sheet dump, trimmed on
success, failure wrapped by the catch. -/
def extractTextFromExcel (file : UploadFile) : Except String String :=
  match file.excelResult with
  | .ok v => .ok (trimStr v)
  | .error m => .error ("Failed to extract text from Excel: " ++ m)

/-- The record-formatting callback of `extractTextFromCSV`, with the
running row index: the row at index 0 becomes
`"Headers: " ++ row.join(" | ") ++ "\n"`, every later row becomes
`row.join(" | ")`. -/
def formatRows (i : Nat) : List (List String) → List String
  | [] => []
  | row :: rest =>
    (if i = 0 then "Headers: " ++ joinWith " | " row ++ "\n"
     else joinWith " | " row) :: formatRows (i + 1) rest

/-- The `end` handler of `extractTextFromCSV`: map the formatting callback
over the records and join with newlines. -/
def formatCSVRecords (records : List (List String)) : String :=
  joinWith "\n" (formatRows 0 records)

/-- The csv-parse call of `extractTextFromCSV` with `trim` and
`skip_empty_lines`, modelled for unquoted input: split the text into
lines, drop empty lines, split each line at commas and trim each field. -/
def parseCSVRecords (text : String) : List (List String) :=
  ((splitChar (Char.ofNat 10) text.data).filter fun l => ¬ l.isEmpty).map
    fun line => (splitChar ',' line).map fun f => (⟨trimChars f⟩ : String)

/-- Function `extractTextFromCSV`: parse the decoded content and format the
records. -/
def extractTextFromCSV (file : UploadFile) : Except String String :=
  .ok (formatCSVRecords (parseCSVRecords file.text))

/-- Function `extractTextFromTXT`: `return await file.text()` — the decoded byte
content verbatim. -/
def extractTextFromTXT (file : UploadFile) : Except String String :=
  .ok file.text

/-- The five extraction routines `parseFile` can dispatch to, in the
order of its conditional chain. -/
inductive Extractor
  | pdf | word | excel | csv | txt
deriving DecidableEq

/-- The conditional chain of `parseFile` on the lowercased MIME type and
file name: each branch fires on its MIME match or its extension suffix
match, in source order. -/
def chooseExtractor (fileType fileName : String) : Option Extractor :=
  if fileType = "application/pdf" ∨ endsWithStr fileName ".pdf" then
    some .pdf
  else if fileType = "application/vnd.openxmlformats-officedocument.wordprocessingml.document" ∨
      fileType = "application/msword" ∨
      endsWithStr fileName ".docx" ∨ endsWithStr fileName ".doc" then
    some .word
  else if fileType = "application/vnd.openxmlformats-officedocument.spreadsheetml.sheet" ∨
      fileType = "application/vnd.ms-excel" ∨
      endsWithStr fileName ".xlsx" ∨ endsWithStr fileName ".xls" then
    some .excel
  else if fileType = "text/csv" ∨ endsWithStr fileName ".csv" then
    some .csv
  else if fileType = "text/plain" ∨ endsWithStr fileName ".txt" ∨
      endsWithStr fileName ".md" ∨ endsWithStr fileName ".json" then
    some .txt
  else
    none

/-- Run the chosen extraction routine on the file. -/
def runExtractor (file : UploadFile) : Extractor → Except String String
  | .pdf => extractTextFromPDF file
  | .word => extractTextFromWord file
  | .excel => extractTextFromExcel file
  | .csv => extractTextFromCSV file
  | .txt => extractTextFromTXT file

/-- Function `parseFile`: lowercase the declared type and the name, dispatch along
the conditional chain, and throw `Unsupported file type: <type|unknown>
(<name>)` when no branch fires. -/
def parseFile (file : UploadFile) : Except String String :=
  let fileType := lowerStr file.type
  let fileName := lowerStr file.name
  match chooseExtractor fileType fileName with
  | some e => runExtractor file e
  | none =>
    .error ("Unsupported file type: " ++
      (if fileType = "" then "unknown" else fileType) ++
      " (" ++ file.name ++ ")")

/-- The sentinel pushed by `parseFiles` when parsing file `f` failed with
message `m`. -/
def errorSentinel (name msg : String) : String :=
  "[Error parsing " ++ name ++ ": " ++ msg ++ "]"

/-- Function `parseFiles`: the sequential loop with its per-file try/catch — a
success pushes the text, a failure pushes the sentinel, and the loop
always continues. -/
def parseFiles : List UploadFile → List String
  | [] => []
  | file :: rest =>
    (match parseFile file with
     | .ok text => text
     | .error m => errorSentinel file.name m) :: parseFiles rest

/-! ## Dispatcher description used by the routing claims

The fixed MIME-type → extractor table embodied in `parseFile`'s
conditional chain, and the per-extractor extension lists, read off the
same chain. -/

/-- The MIME types `parseFile` recognizes, with the extractor each one
selects. -/
def mimeTable : List (String × Extractor) :=
  [("application/pdf", .pdf),
   ("application/vnd.openxmlformats-officedocument.wordprocessingml.document", .word),
   ("application/msword", .word),
   ("application/vnd.openxmlformats-officedocument.spreadsheetml.sheet", .excel),
   ("application/vnd.ms-excel", .excel),
   ("text/csv", .csv),
   ("text/plain", .txt)]

/-- The extension suffixes each extractor's branch tests. -/
def extTable : Extractor → List String
  | .pdf => [".pdf"]
  | .word => [".docx", ".doc"]
  | .excel => [".xlsx", ".xls"]
  | .csv => [".csv"]
  | .txt => [".txt", ".md", ".json"]

/-- Whether the lowercased type `t` is one of extractor `c`'s MIME
types. -/
def mimeMatch (t : String) (c : Extractor) : Bool :=
  mimeTable.any fun p => p.1 = t ∧ p.2 = c

/-- Whether the lowercased name `n` ends with one of extractor `c`'s
extensions. -/
def extMatch (n : String) (c : Extractor) : Bool :=
  (extTable c).any fun ext => endsWithStr n ext

/-- The order in which `parseFile`'s conditional chain tries the
extractors. -/
def extractorOrder : List Extractor :=
  [.pdf, .word, .excel, .csv, .txt]

/-! ## Helper lemmas -/

/-- Concatenating strings concatenates their character lists. -/
lemma data_append (s t : String) : (s ++ t).data = s.data ++ t.data := rfl

/-- The character list of `takeStr`. -/
lemma data_takeStr (s : String) (n : Nat) : (takeStr s n).data = s.data.take n := rfl

/-! ## C5: content preview -/

/-- C5: `createContentPreview` returns the text unchanged when its length
is at most `maxLength`, and otherwise exactly the first `maxLength`
characters followed by the fixed ellipsis "..."; it is total (a plain
function), and the result's length never exceeds
`maxLength + length "..."`. -/
theorem createContentPreview_spec (content : String) (maxLength : Nat) :
    (content.data.length ≤ maxLength →
      createContentPreview content maxLength = content) ∧
    (maxLength < content.data.length →
      createContentPreview content maxLength = takeStr content maxLength ++ "...") ∧
    (createContentPreview content maxLength).data.length ≤
      maxLength + ("..." : String).data.length := by
  refine ⟨fun h => by unfold createContentPreview; rw [if_pos h],
          fun h => by unfold createContentPreview; rw [if_neg (Nat.not_le.mpr h)], ?_⟩
  unfold createContentPreview
  split
  · exact Nat.le_trans (by assumption) (Nat.le_add_right _ _)
  · rw [data_append, data_takeStr, List.length_append, List.length_take]
    exact Nat.add_le_add_right (Nat.min_le_left _ _) _

/-- Witness for C5 at a concrete truncating input. -/
theorem createContentPreview_spec_witness :
    createContentPreview "hello" 3 = takeStr "hello" 3 ++ "..." :=
  (createContentPreview_spec "hello" 3).2.1 (by decide)

/-! ## C1: batch orchestration -/

/-- C1: `parseFiles` returns one string per input file, in input order:
the extracted text when `parseFile` succeeds and the sentinel
`"[Error parsing <name>: <message>]"` when it fails.  The map form shows
that each position depends only on the corresponding file, so one file's
failure never aborts the batch or disturbs another position. -/
theorem parseFiles_spec (files : List UploadFile) :
    (parseFiles files).length = files.length ∧
    parseFiles files = files.map fun file =>
      match parseFile file with
      | .ok text => text
      | .error m => errorSentinel file.name m := by
  have hmap : parseFiles files = files.map fun file =>
      match parseFile file with
      | .ok text => text
      | .error m => errorSentinel file.name m := by
    induction files with
    | nil => rfl
    | cons f fs ih => simp only [parseFiles, ih, List.map_cons]
  exact ⟨by rw [hmap, List.length_map], hmap⟩

/-! ## C2 and C10: validation -/

/-- The aggregated error list is exactly one formatted message per file
failing the type or size predicate, with the type message when the type
check fails and the size message otherwise. -/
lemma collectErrors_eq (files : List UploadFile) :
    collectErrors files =
      (files.filter fun f => !(validateFileType f && validateFileSize f)).map
        fun f => f.name ++ ": " ++
          (if validateFileType f then sizeErrorMsg else typeErrorMsg) := by
  induction files with
  | nil => rfl
  | cons f fs ih =>
    by_cases hT : validateFileType f = true
    · by_cases hS : validateFileSize f = true
      · simp [collectErrors, validateFile, hT, hS, ih]
      · simp [collectErrors, validateFile, hT, hS, ih]
    · simp [collectErrors, validateFile, hT, ih]

/-- C2: `validateFiles files` is valid iff every file passes both the
type and the size predicate; its `errors` list holds exactly one message
per failing file, formatted `"<filename>: <reason>"`; and it is invalid
iff it carries at least one error.  The embedding is a pure function of
the input list, so the input is not mutated. -/
theorem validateFiles_spec (files : List UploadFile) :
    ((validateFiles files).valid = true ↔
      ∀ f ∈ files, validateFileType f = true ∧ validateFileSize f = true) ∧
    (validateFiles files).errors =
      (files.filter fun f => !(validateFileType f && validateFileSize f)).map
        (fun f => f.name ++ ": " ++
          (if validateFileType f then sizeErrorMsg else typeErrorMsg)) ∧
    ((validateFiles files).valid = false ↔
      1 ≤ (validateFiles files).errors.length) := by
  have herr : (validateFiles files).errors =
      (files.filter fun f => !(validateFileType f && validateFileSize f)).map
        (fun f => f.name ++ ": " ++
          (if validateFileType f then sizeErrorMsg else typeErrorMsg)) :=
    collectErrors_eq files
  have hvalid : (validateFiles files).valid =
      ((validateFiles files).errors.length == 0) := rfl
  refine ⟨?_, herr, ?_⟩
  · rw [hvalid, herr]
    simp only [beq_iff_eq, List.length_eq_zero, List.map_eq_nil_iff,
      List.filter_eq_nil_iff]
    constructor
    · intro h f hf
      have := h f hf
      simp only [Bool.not_eq_true', Bool.not_eq_false] at this
      exact ⟨(Bool.and_eq_true _ _ |>.mp this).1, (Bool.and_eq_true _ _ |>.mp this).2⟩
    · intro h f hf
      simp only [Bool.not_eq_true', Bool.not_eq_false, Bool.and_eq_true]
      exact h f hf
  · rw [hvalid]
    simp [beq_eq_false_iff_ne, Nat.one_le_iff_ne_zero]

/-- A file failing both checks: disallowed type and extension, and a size
above the 10 MiB ceiling. -/
def doubleBadFile : UploadFile :=
  { name := "virus.exe", type := "application/octet-stream", size := 10485761 }

/-- C10: `validateFile` checks the type predicate before the size
predicate, so a file failing both is reported with the type error alone,
and the aggregated result for that file holds exactly one entry. -/
theorem validateFile_typeFirst (f : UploadFile)
    (hT : validateFileType f = false) (_hS : validateFileSize f = false) :
    validateFile f = ⟨false, some typeErrorMsg⟩ ∧
    validateFiles [f] = ⟨false, [f.name ++ ": " ++ typeErrorMsg]⟩ := by
  have h1 : validateFile f = ⟨false, some typeErrorMsg⟩ := by
    unfold validateFile
    rw [if_pos (by simp [hT])]
  refine ⟨h1, ?_⟩
  show (⟨(collectErrors [f]).length == 0, collectErrors [f]⟩ : ValidationResult) = _
  have h2 : collectErrors [f] = [f.name ++ ": " ++ typeErrorMsg] := by
    unfold collectErrors
    rw [h1]
    rfl
  rw [h2]
  rfl

/-- Witness for C10 at a concrete file failing both checks. -/
theorem validateFile_typeFirst_witness :
    validateFileType doubleBadFile = false ∧
    validateFileSize doubleBadFile = false ∧
    validateFile doubleBadFile = ⟨false, some typeErrorMsg⟩ :=
  ⟨by decide, by decide,
   (validateFile_typeFirst doubleBadFile (by decide) (by decide)).1⟩

/-! ## C3: dispatch precedence -/

/-- The PDF branch condition of `parseFile`, in table form. -/
lemma match_pdf_iff (t n : String) :
    (mimeMatch t .pdf || extMatch n .pdf) = true ↔
      ("application/pdf" = t ∨ endsWithStr n ".pdf" = true) := by
  simp [mimeMatch, extMatch, mimeTable, extTable]

/-- The Word branch condition of `parseFile`, in table form. -/
lemma match_word_iff (t n : String) :
    (mimeMatch t .word || extMatch n .word) = true ↔
      ("application/vnd.openxmlformats-officedocument.wordprocessingml.document" = t ∨
       "application/msword" = t ∨
       endsWithStr n ".docx" = true ∨ endsWithStr n ".doc" = true) := by
  simp [mimeMatch, extMatch, mimeTable, extTable]
  tauto

/-- The Excel branch condition of `parseFile`, in table form. -/
lemma match_excel_iff (t n : String) :
    (mimeMatch t .excel || extMatch n .excel) = true ↔
      ("application/vnd.openxmlformats-officedocument.spreadsheetml.sheet" = t ∨
       "application/vnd.ms-excel" = t ∨
       endsWithStr n ".xlsx" = true ∨ endsWithStr n ".xls" = true) := by
  simp [mimeMatch, extMatch, mimeTable, extTable]
  tauto

/-- The CSV branch condition of `parseFile`, in table form. -/
lemma match_csv_iff (t n : String) :
    (mimeMatch t .csv || extMatch n .csv) = true ↔
      ("text/csv" = t ∨ endsWithStr n ".csv" = true) := by
  simp [mimeMatch, extMatch, mimeTable, extTable]

/-- The plain-text branch condition of `parseFile`, in table form. -/
lemma match_txt_iff (t n : String) :
    (mimeMatch t .txt || extMatch n .txt) = true ↔
      ("text/plain" = t ∨ endsWithStr n ".txt" = true ∨
       endsWithStr n ".md" = true ∨ endsWithStr n ".json" = true) := by
  simp [mimeMatch, extMatch, mimeTable, extTable]

/-- The conditional chain of `parseFile` picks the first extractor, in the
fixed order PDF, Word, Excel, CSV, plain text, whose MIME set contains the
declared type or whose extension list suffix-matches the name. -/
lemma chooseExtractor_eq_find (t n : String) :
    chooseExtractor t n =
      extractorOrder.find? fun c => mimeMatch t c || extMatch n c := by
  unfold chooseExtractor extractorOrder
  by_cases h1 : t = "application/pdf" ∨ endsWithStr n ".pdf" = true
  · rw [if_pos h1, List.find?_cons_of_pos (p := fun c => mimeMatch t c || extMatch n c)
      _ ((match_pdf_iff t n).mpr (by tauto))]
  · rw [if_neg h1, List.find?_cons_of_neg (p := fun c => mimeMatch t c || extMatch n c)
      _ (fun hc => h1 (by have := (match_pdf_iff t n).mp hc; tauto))]
    by_cases h2 : t = "application/vnd.openxmlformats-officedocument.wordprocessingml.document" ∨
        t = "application/msword" ∨ endsWithStr n ".docx" = true ∨ endsWithStr n ".doc" = true
    · rw [if_pos h2, List.find?_cons_of_pos (p := fun c => mimeMatch t c || extMatch n c)
        _ ((match_word_iff t n).mpr (by tauto))]
    · rw [if_neg h2, List.find?_cons_of_neg (p := fun c => mimeMatch t c || extMatch n c)
        _ (fun hc => h2 (by have := (match_word_iff t n).mp hc; tauto))]
      by_cases h3 : t = "application/vnd.openxmlformats-officedocument.spreadsheetml.sheet" ∨
          t = "application/vnd.ms-excel" ∨ endsWithStr n ".xlsx" = true ∨ endsWithStr n ".xls" = true
      · rw [if_pos h3, List.find?_cons_of_pos (p := fun c => mimeMatch t c || extMatch n c)
          _ ((match_excel_iff t n).mpr (by tauto))]
      · rw [if_neg h3, List.find?_cons_of_neg (p := fun c => mimeMatch t c || extMatch n c)
          _ (fun hc => h3 (by have := (match_excel_iff t n).mp hc; tauto))]
        by_cases h4 : t = "text/csv" ∨ endsWithStr n ".csv" = true
        · rw [if_pos h4, List.find?_cons_of_pos (p := fun c => mimeMatch t c || extMatch n c)
            _ ((match_csv_iff t n).mpr (by tauto))]
        · rw [if_neg h4, List.find?_cons_of_neg (p := fun c => mimeMatch t c || extMatch n c)
            _ (fun hc => h4 (by have := (match_csv_iff t n).mp hc; tauto))]
          by_cases h5 : t = "text/plain" ∨ endsWithStr n ".txt" = true ∨
              endsWithStr n ".md" = true ∨ endsWithStr n ".json" = true
          · rw [if_pos h5, List.find?_cons_of_pos (p := fun c => mimeMatch t c || extMatch n c)
              _ ((match_txt_iff t n).mpr (by tauto))]
          · rw [if_neg h5, List.find?_cons_of_neg (p := fun c => mimeMatch t c || extMatch n c)
              _ (fun hc => h5 (by have := (match_txt_iff t n).mp hc; tauto))]
            rfl

/-- A file whose declared MIME type exactly matches the table entry for
the CSV extractor but whose name carries a `.pdf` extension. -/
def csvMimePdfName : UploadFile :=
  { name := "a.pdf", type := "text/csv", size := 0, text := "x", pages := ["deck"] }

/-- C3 counterexample: the MIME type "text/csv" exactly matches the CSV
entry of the type-to-extractor table, yet a file declaring it under the
name "a.pdf" is routed to the PDF extractor, not the CSV extractor — the
PDF branch's extension test fires before the CSV branch's MIME test, so a
MIME exact match does not route regardless of extension. -/
theorem mimeRouting_counterexample :
    ("text/csv", Extractor.csv) ∈ mimeTable ∧
    chooseExtractor "text/csv" "a.pdf" = some Extractor.pdf ∧
    Extractor.pdf ≠ Extractor.csv ∧
    parseFile csvMimePdfName = .ok "--- Page 1 ---\ndeck" ∧
    runExtractor csvMimePdfName Extractor.csv = .ok "Headers: x\n" :=
  ⟨by decide, by decide, by decide, by rfl, by rfl⟩

/-- C3 (amended): `parseFile` dispatches to the first extractor, in the
fixed branch order PDF; Word; Excel; CSV; plain text, whose MIME set
contains the lowercased declared type or whose extension list
suffix-matches the lowercased name — so a MIME exact match is honoured
only when no earlier branch matches by MIME or extension, and the
extension test of a branch can override the MIME match of a later branch.
With no match at all, the file fails as unsupported. -/
theorem mimeRouting_amended (f : UploadFile) :
    parseFile f =
      match extractorOrder.find? (fun c =>
          mimeMatch (lowerStr f.type) c || extMatch (lowerStr f.name) c) with
      | some e => runExtractor f e
      | none =>
        .error ("Unsupported file type: " ++
          (if lowerStr f.type = "" then "unknown" else lowerStr f.type) ++
          " (" ++ f.name ++ ")") := by
  show (match chooseExtractor (lowerStr f.type) (lowerStr f.name) with
    | some e => runExtractor f e
    | none =>
      .error ("Unsupported file type: " ++
        (if lowerStr f.type = "" then "unknown" else lowerStr f.type) ++
        " (" ++ f.name ++ ")")) = _
  rw [chooseExtractor_eq_find]

/-! ## C8: plain-text identity -/

/-- A plain text file as the dispatcher sees it. -/
def txtSample : UploadFile :=
  { name := "notes.txt", type := "text/plain", size := 1, text := "hello" }

/-- C8: any file the dispatcher routes to the plain-text extractor comes
back as its decoded byte content, unchanged. -/
theorem plainTextIdentity (f : UploadFile)
    (h : chooseExtractor (lowerStr f.type) (lowerStr f.name) = some Extractor.txt) :
    parseFile f = .ok f.text := by
  show (match chooseExtractor (lowerStr f.type) (lowerStr f.name) with
    | some e => runExtractor f e
    | none =>
      .error ("Unsupported file type: " ++
        (if lowerStr f.type = "" then "unknown" else lowerStr f.type) ++
        " (" ++ f.name ++ ")")) = _
  rw [h]
  rfl

/-- Witness for C8 at a concrete plain-text file. -/
theorem plainTextIdentity_witness :
    parseFile txtSample = .ok txtSample.text :=
  plainTextIdentity txtSample (by decide)

/-! ## C9: the PowerPoint gap -/

/-- A file with a PowerPoint MIME type but a `.pdf` name. -/
def pptMimePdfName : UploadFile :=
  { name := "slides.pdf", type := "application/vnd.ms-powerpoint", size := 0,
    pages := ["deck"] }

/-- A pure PowerPoint upload: PowerPoint MIME type and `.pptx` name. -/
def pptSample : UploadFile :=
  { name := "deck.pptx", type := "application/vnd.ms-powerpoint", size := 5 }

/-- C9 counterexample: a file whose declared MIME type is PowerPoint but
whose name ends in `.pdf` is accepted by the validator and then routed to
the PDF extractor, which can succeed — `parseFile` does not fail with the
unsupported-format error for every PowerPoint-typed file. -/
theorem powerpointGap_counterexample :
    validateFileType pptMimePdfName = true ∧
    parseFile pptMimePdfName = .ok "--- Page 1 ---\ndeck" :=
  ⟨by decide, by rfl⟩

/-- C9 (amended): a file whose declared MIME type or extension is
PowerPoint, and which matches no extractor branch by MIME or extension, is
accepted by `validateFileType` yet fails in `parseFile` with the
unsupported-format error carrying the observed (lowercased) type and the
original filename; in a batch the failure is caught and becomes the
sentinel entry rather than aborting. -/
theorem powerpointGap_amended (f : UploadFile)
    (hppt : lowerStr f.type = "application/vnd.ms-powerpoint" ∨
        lowerStr f.type =
          "application/vnd.openxmlformats-officedocument.presentationml.presentation" ∨
        endsWithStr (lowerStr f.name) ".ppt" = true ∨
        endsWithStr (lowerStr f.name) ".pptx" = true)
    (hnone : ∀ c ∈ extractorOrder,
        mimeMatch (lowerStr f.type) c = false ∧
        extMatch (lowerStr f.name) c = false) :
    validateFileType f = true ∧
    parseFile f = .error ("Unsupported file type: " ++
      (if lowerStr f.type = "" then "unknown" else lowerStr f.type) ++
      " (" ++ f.name ++ ")") ∧
    parseFiles [f] = [errorSentinel f.name ("Unsupported file type: " ++
      (if lowerStr f.type = "" then "unknown" else lowerStr f.type) ++
      " (" ++ f.name ++ ")")] := by
  have hchoose : chooseExtractor (lowerStr f.type) (lowerStr f.name) = none := by
    rw [chooseExtractor_eq_find, List.find?_eq_none]
    intro c hc
    have h := hnone c hc
    simp [h.1, h.2]
  have hparse : parseFile f = .error ("Unsupported file type: " ++
      (if lowerStr f.type = "" then "unknown" else lowerStr f.type) ++
      " (" ++ f.name ++ ")") := by
    show (match chooseExtractor (lowerStr f.type) (lowerStr f.name) with
      | some e => runExtractor f e
      | none =>
        .error ("Unsupported file type: " ++
          (if lowerStr f.type = "" then "unknown" else lowerStr f.type) ++
          " (" ++ f.name ++ ")")) = _
    rw [hchoose]
  have hvalid : validateFileType f = true := by
    unfold validateFileType
    by_cases hc : lowerStr f.type ≠ "" ∧
        ALLOWED_FILE_TYPES.any (fun p => p.1 = lowerStr f.type)
    · rw [if_pos hc]
    · rw [if_neg hc]
      rcases hppt with h | h | h | h
      · exact absurd ⟨by rw [h]; decide, by rw [h]; decide⟩ hc
      · exact absurd ⟨by rw [h]; decide, by rw [h]; decide⟩ hc
      · exact List.any_eq_true.mpr ⟨".ppt", by decide, h⟩
      · exact List.any_eq_true.mpr ⟨".pptx", by decide, h⟩
  refine ⟨hvalid, hparse, ?_⟩
  show (match parseFile f with
    | .ok text => text
    | .error m => errorSentinel f.name m) :: parseFiles [] = _
  rw [hparse]
  rfl

/-- Witness for C9 at a concrete PowerPoint upload. -/
theorem powerpointGap_amended_witness :
    validateFileType pptSample = true ∧
    parseFile pptSample = .error ("Unsupported file type: " ++
      (if lowerStr pptSample.type = "" then "unknown" else lowerStr pptSample.type) ++
      " (" ++ pptSample.name ++ ")") ∧
    parseFiles [pptSample] = [errorSentinel pptSample.name ("Unsupported file type: " ++
      (if lowerStr pptSample.type = "" then "unknown" else lowerStr pptSample.type) ++
      " (" ++ pptSample.name ++ ")")] :=
  powerpointGap_amended pptSample (by decide) (by decide)

/-! ## C6: CSV rendering -/

/-- From index 1 on, the CSV formatting callback renders every row
without the header treatment. -/
lemma formatRows_succ (rs : List (List String)) (i : Nat) :
    formatRows (i + 1) rs = rs.map (joinWith " | ") := by
  induction rs generalizing i with
  | nil => rfl
  | cons r rest ih => simp [formatRows, ih]

/-- JS `array.join(sep)` on a list with at least two elements. -/
lemma joinWith_cons (sep x : String) (ys : List String) (h : ys ≠ []) :
    joinWith sep (x :: ys) = x ++ sep ++ joinWith sep ys := by
  cases ys with
  | nil => exact absurd rfl h
  | cons z zs => rfl

/-- The CSV file of the spec's concrete example. -/
def csvSample : UploadFile :=
  { name := "t.csv", type := "text/csv", size := 0, text := "a,b\n1,2\n3,4" }

/-- C6 counterexample: on input "a,b\n1,2\n3,4" the CSV extractor yields
"Headers: a | b\n\n1 | 2\n3 | 4", whose second line is empty: the line
"1 | 2" does not immediately follow the header line, because the header
row is rendered with a trailing newline before the rows are joined with
newlines. -/
theorem csvHeaders_counterexample :
    extractTextFromCSV csvSample = .ok "Headers: a | b\n\n1 | 2\n3 | 4" ∧
    linesOf "Headers: a | b\n\n1 | 2\n3 | 4" =
      ["Headers: a | b", "", "1 | 2", "3 | 4"] ∧
    (["Headers: a | b", "", "1 | 2", "3 | 4"] : List String) ≠
      ["Headers: a | b", "1 | 2", "3 | 4"] :=
  ⟨by rfl, by decide, by decide⟩

/-- C6 (amended): the first parsed row is rendered with the "Headers: "
prefix and " | " delimiter and a trailing newline of its own, so the
output is the header line, then one empty line, then the remaining rows
rendered with " | " and joined by single newlines, preserving row order
exactly; on "a,b\n1,2\n3,4" the lines are "Headers: a | b", "", "1 | 2",
"3 | 4". -/
theorem csvFormat_amended (r : List String) (rs : List (List String))
    (h : rs ≠ []) :
    formatCSVRecords (r :: rs) =
      ("Headers: " ++ joinWith " | " r) ++ "\n\n" ++
        joinWith "\n" (rs.map (joinWith " | ")) := by
  unfold formatCSVRecords
  have h0 : formatRows 0 (r :: rs) =
      ("Headers: " ++ joinWith " | " r ++ "\n") :: rs.map (joinWith " | ") := by
    have h1 : formatRows 1 rs = rs.map (joinWith " | ") := formatRows_succ rs 0
    simp [formatRows, h1]
  rw [h0, joinWith_cons _ _ _ (by simpa using h)]
  apply String.ext
  simp [data_append, List.append_assoc]

/-- Witness for C6 (amended) at the spec's concrete records. -/
theorem csvFormat_amended_witness :
    formatCSVRecords [["a", "b"], ["1", "2"], ["3", "4"]] =
      ("Headers: " ++ joinWith " | " ["a", "b"]) ++ "\n\n" ++
        joinWith "\n" ([["1", "2"], ["3", "4"]].map (joinWith " | ")) :=
  csvFormat_amended ["a", "b"] [["1", "2"], ["3", "4"]] (by decide)

/-! ## C4 and C7: PDF extraction -/

/-- An element that fails the predicate survives `dropWhile`. -/
lemma mem_dropWhile {α : Type} (p : α → Bool) (l : List α) (c : α)
    (hc : c ∈ l) (hpc : p c = false) : c ∈ l.dropWhile p := by
  have hsplit := List.takeWhile_append_dropWhile p l
  rw [← hsplit] at hc
  rcases List.mem_append.mp hc with h | h
  · have := List.mem_takeWhile_imp h
    rw [hpc] at this
    exact absurd this (by simp)
  · exact h

/-- A character list containing a non-whitespace character does not trim
to the empty list. -/
lemma trimChars_ne_nil (l : List Char) (c : Char) (hc : c ∈ l)
    (hw : isWS c = false) : trimChars l ≠ [] := by
  unfold trimChars
  intro h
  rw [List.reverse_eq_nil_iff] at h
  have h1 : c ∈ l.dropWhile isWS := mem_dropWhile _ _ _ hc hw
  have h2 : c ∈ (l.dropWhile isWS).reverse := List.mem_reverse.mpr h1
  have h3 : c ∈ ((l.dropWhile isWS).reverse).dropWhile isWS :=
    mem_dropWhile _ _ _ h2 hw
  rw [h] at h3
  exact absurd h3 (List.not_mem_nil c)

/-- Every rendered page block contains a dash (from its page marker). -/
lemma dash_mem_renderPage (i : Nat) (t : String) :
    '-' ∈ (renderPage i t).data := by
  have hdash : '-' ∈ ("\n--- Page " : String).data := by decide
  unfold renderPage
  split <;>
    · simp only [data_append, List.mem_append]
      tauto

/-- The accumulated page text of a nonempty page list contains a dash. -/
lemma dash_mem_pdfFullText (i : Nat) (ps : List String) (h : ps ≠ []) :
    '-' ∈ (pdfFullText i ps).data := by
  cases ps with
  | nil => exact absurd rfl h
  | cons t ts =>
    show '-' ∈ (renderPage i t ++ pdfFullText (i + 1) ts).data
    rw [data_append]
    exact List.mem_append_left _ (dash_mem_renderPage i t)

/-- For a nonempty page list the trimmed accumulated text is nonempty. -/
lemma trim_pdfFullText_ne_zero (ps : List String) (h : ps ≠ []) :
    (trimStr (pdfFullText 1 ps)).data.length ≠ 0 := by
  intro hlen
  exact trimChars_ne_nil (pdfFullText 1 ps).data '-'
    (dash_mem_pdfFullText 1 ps h) (by decide)
    (List.length_eq_zero.mp hlen)

/-- The empty-page counter reaches the page count exactly when every page
has zero extractable text. -/
lemma countEmpty_eq_length_iff (ps : List String) :
    countEmptyPages ps = ps.length ↔ ∀ t ∈ ps, t.data.length = 0 := by
  unfold countEmptyPages
  rw [List.filter_length_eq_length]
  simp

/-- When some page is nonempty, the body returns the trimmed accumulated
text. -/
lemma extractPDFBody_ok (ps : List String) (t : String) (ht : t ∈ ps)
    (htlen : t.data.length ≠ 0) :
    extractPDFBody ps = .ok (trimStr (pdfFullText 1 ps)) := by
  have hne : countEmptyPages ps ≠ ps.length := by
    rw [Ne, countEmpty_eq_length_iff]
    push_neg
    exact ⟨t, ht, htlen⟩
  unfold extractPDFBody
  rw [if_neg hne, if_neg (trim_pdfFullText_ne_zero ps (List.ne_nil_of_mem ht))]

/-- C4: `extractTextFromPDF` fails with the (wrapped) image-only error
precisely when every page yields zero extractable text; with at least one
nonempty page it never raises this error (it returns a nonempty trimmed
success string instead). -/
theorem pdfImageOnly_iff (f : UploadFile) :
    extractTextFromPDF f =
      .error ("Failed to extract text from PDF: " ++ imageOnlyMsg) ↔
    ∀ t ∈ f.pages, t.data.length = 0 := by
  constructor
  · intro h
    by_contra hall
    push_neg at hall
    obtain ⟨t, ht, htlen⟩ := hall
    unfold extractTextFromPDF at h
    rw [extractPDFBody_ok f.pages t ht htlen] at h
    exact absurd h (by simp)
  · intro hall
    have heq : countEmptyPages f.pages = f.pages.length :=
      (countEmpty_eq_length_iff _).mpr hall
    unfold extractTextFromPDF extractPDFBody
    rw [if_pos heq]

/-- The page loop of `extractTextFromPDF` renders exactly one block per
page, carrying consecutive page numbers from `n` on. -/
lemma pdfFullText_eq_concat (ps : List String) : ∀ n : Nat,
    pdfFullText n ps =
      concatAll ((List.range ps.length).map fun k =>
        renderPage (n + k) (ps.getD k "")) := by
  induction ps with
  | nil => intro n; rfl
  | cons t ts ih =>
    intro n
    show renderPage n t ++ pdfFullText (n + 1) ts = _
    rw [ih (n + 1)]
    show _ = concatAll ((List.range (ts.length + 1)).map fun k =>
      renderPage (n + k) ((t :: ts).getD k ""))
    rw [List.range_succ_eq_map, List.map_cons, List.map_map]
    have hfun : ((fun k => renderPage (n + k) ((t :: ts).getD k "")) ∘ Nat.succ) =
        fun k => renderPage (n + 1 + k) (ts.getD k "") := by
      funext k
      show renderPage (n + (k + 1)) (ts.getD k "") = _
      congr 1
      omega
    rw [hfun]
    rfl

/-- C7: for a PDF with at least one nonempty page, the output is the trim
of the concatenation of exactly `N = pages.length` blocks, the `k`-th
carrying the ascending 1-based page marker `--- Page (k+1) ---` followed
by that page's text, and an explicit empty-page marker (never a silent
skip) where the page has zero extractable text. -/
theorem pdfPageMarkers (f : UploadFile)
    (h : ∃ t ∈ f.pages, t.data.length ≠ 0) :
    extractTextFromPDF f = .ok (trimStr (concatAll
      ((List.range f.pages.length).map fun k =>
        "\n--- Page " ++ Nat.repr (k + 1) ++ " ---\n" ++
        (if 0 < (f.pages.getD k "").data.length then f.pages.getD k ""
         else "[Empty page - possibly scanned image]") ++ "\n"))) := by
  obtain ⟨t, ht, htlen⟩ := h
  unfold extractTextFromPDF
  rw [extractPDFBody_ok f.pages t ht htlen, pdfFullText_eq_concat]
  have hfun : (fun k => renderPage (1 + k) (f.pages.getD k "")) =
      fun k =>
        "\n--- Page " ++ Nat.repr (k + 1) ++ " ---\n" ++
        (if 0 < (f.pages.getD k "").data.length then f.pages.getD k ""
         else "[Empty page - possibly scanned image]") ++ "\n" := by
    funext k
    rw [Nat.add_comm 1 k]
    unfold renderPage
    split
    · rfl
    · apply String.ext
      simp only [data_append, List.append_assoc]
      rfl
  rw [hfun]

/-- A PDF delivering one text page and one empty page. -/
def pdfSample : UploadFile :=
  { name := "r.pdf", type := "application/pdf", size := 1,
    pages := ["alpha", ""] }

/-- Witness for C7 at a concrete two-page PDF. -/
theorem pdfPageMarkers_witness :
    extractTextFromPDF pdfSample = .ok (trimStr (concatAll
      ((List.range pdfSample.pages.length).map fun k =>
        "\n--- Page " ++ Nat.repr (k + 1) ++ " ---\n" ++
        (if 0 < (pdfSample.pages.getD k "").data.length then pdfSample.pages.getD k ""
         else "[Empty page - possibly scanned image]") ++ "\n"))) :=
  pdfPageMarkers pdfSample (by decide)

end AiRagWeb
